import Mathlib

/-!
Shallow embedding of `src/main.py` (a FastAPI "latest image" relay service)
and proofs about its behaviour.

Bytes are modelled as `List Nat` with every element `< 256`.  Strings
(filenames, log lines, error messages) are Lean `String`s.  Ambient inputs
of the Python runtime (the wall-clock timestamp, whether a disk write or
read succeeds, whether the request body parses as JSON) are passed as
explicit parameters.  An uncaught Python exception escaping a handler is
modelled as `Except.error`.
-/

namespace ContainerId

abbrev Bytes := List Nat

/-- The standard base64 alphabet as ASCII codes: `A-Z a-z 0-9 + /`
(what Python's `base64.b64encode` uses). -/
def b64Alphabet : List Nat :=
  [65, 66, 67, 68, 69, 70, 71, 72, 73, 74, 75, 76, 77, 78, 79, 80, 81, 82,
   83, 84, 85, 86, 87, 88, 89, 90,
   97, 98, 99, 100, 101, 102, 103, 104, 105, 106, 107, 108, 109, 110, 111,
   112, 113, 114, 115, 116, 117, 118, 119, 120, 121, 122,
   48, 49, 50, 51, 52, 53, 54, 55, 56, 57, 43, 47]

/-- Sextet value (0..63) to ASCII code of its base64 character. -/
def encChar (n : Nat) : Nat := b64Alphabet.getD n 0

/-- ASCII code to sextet value: `some` iff the character is in the base64
alphabet (`=`, ASCII 61, is handled separately by the decoder). -/
def decChar (c : Nat) : Option Nat := b64Alphabet.indexOf? c

/-- `base64.b64encode`: groups of three bytes become four alphabet
characters; a final group of one or two bytes is padded with `=` (61). -/
def b64encode : Bytes → Bytes
  | [] => []
  | [a] => [encChar (a / 4), encChar (a % 4 * 16), 61, 61]
  | [a, b] => [encChar (a / 4), encChar (a % 4 * 16 + b / 16), encChar (b % 16 * 4), 61]
  | a :: b :: c :: rest =>
      encChar (a / 4) :: encChar (a % 4 * 16 + b / 16) ::
      encChar (b % 16 * 4 + c / 64) :: encChar (c % 64) :: b64encode rest

/-- The state machine of CPython's `binascii.a2b_base64` in non-strict mode
(what `base64.b64decode` calls): characters outside the alphabet are
silently discarded; `=` with fewer than two data characters in the current
quad is ignored; `=` bringing `quadPos + pads` to four or more ends the
decode successfully (the rest of the input is not parsed); every accepted
data character resets `pads` to zero; input ending mid-quad is an error
(`none`). `quadPos` counts data characters in the current quad, `leftBits`
holds the pending bits, `pads` the `=` signs seen since the last data
character of the current quad, `acc` the output bytes in reverse. -/
def a2b : List Nat → Nat → Nat → Nat → Bytes → Option Bytes
  | [], quadPos, _, _, acc =>
      if quadPos = 0 then some acc.reverse else none
  | c :: rest, quadPos, leftBits, pads, acc =>
      if c = 61 then
        if 2 ≤ quadPos then
          if 4 ≤ quadPos + pads + 1 then some acc.reverse
          else a2b rest quadPos leftBits (pads + 1) acc
        else a2b rest quadPos leftBits pads acc
      else
        match decChar c with
        | none => a2b rest quadPos leftBits pads acc
        | some d =>
          match quadPos with
          | 0 => a2b rest 1 d 0 acc
          | 1 => a2b rest 2 ((leftBits * 64 + d) % 16) 0 ((leftBits * 64 + d) / 16 :: acc)
          | 2 => a2b rest 3 ((leftBits * 64 + d) % 4) 0 ((leftBits * 64 + d) / 4 :: acc)
          | _ => a2b rest 0 0 0 ((leftBits * 64 + d) :: acc)

/-- `base64.b64decode` (non-strict): `none` models a raised
`binascii.Error`. -/
def b64decode (s : Bytes) : Option Bytes := a2b s 0 0 0 []

theorem decChar_encChar_all : ∀ n, n < 64 → decChar (encChar n) = some n := by decide

theorem encChar_ne_61_all : ∀ n, n < 64 → encChar n ≠ 61 := by decide

theorem a2b_data0 {c d : Nat} (hc : c ≠ 61) (hd : decChar c = some d)
    (rest : List Nat) (leftBits pads : Nat) (acc : Bytes) :
    a2b (c :: rest) 0 leftBits pads acc = a2b rest 1 d 0 acc := by
  simp only [a2b]; rw [if_neg hc, hd]

theorem a2b_data1 {c d : Nat} (hc : c ≠ 61) (hd : decChar c = some d)
    (rest : List Nat) (leftBits pads : Nat) (acc : Bytes) :
    a2b (c :: rest) 1 leftBits pads acc =
      a2b rest 2 ((leftBits * 64 + d) % 16) 0 ((leftBits * 64 + d) / 16 :: acc) := by
  simp only [a2b]; rw [if_neg hc, hd]

theorem a2b_data2 {c d : Nat} (hc : c ≠ 61) (hd : decChar c = some d)
    (rest : List Nat) (leftBits pads : Nat) (acc : Bytes) :
    a2b (c :: rest) 2 leftBits pads acc =
      a2b rest 3 ((leftBits * 64 + d) % 4) 0 ((leftBits * 64 + d) / 4 :: acc) := by
  simp only [a2b]; rw [if_neg hc, hd]

theorem a2b_data3 {c d : Nat} (hc : c ≠ 61) (hd : decChar c = some d)
    (rest : List Nat) (leftBits pads : Nat) (acc : Bytes) :
    a2b (c :: rest) 3 leftBits pads acc =
      a2b rest 0 0 0 ((leftBits * 64 + d) :: acc) := by
  simp only [a2b]; rw [if_neg hc, hd]

theorem a2b_quad {a b c : Nat} (ha : a < 256) (hb : b < 256) (hc : c < 256)
    (rest : List Nat) (acc : Bytes) :
    a2b (encChar (a / 4) :: encChar (a % 4 * 16 + b / 16) ::
         encChar (b % 16 * 4 + c / 64) :: encChar (c % 64) :: rest) 0 0 0 acc =
      a2b rest 0 0 0 (c :: b :: a :: acc) := by
  rw [a2b_data0 (encChar_ne_61_all _ (by omega)) (decChar_encChar_all _ (by omega))]
  rw [a2b_data1 (encChar_ne_61_all _ (by omega)) (decChar_encChar_all _ (by omega))]
  have h1 : (a / 4 * 64 + (a % 4 * 16 + b / 16)) / 16 = a := by omega
  have h2 : (a / 4 * 64 + (a % 4 * 16 + b / 16)) % 16 = b / 16 := by omega
  rw [h1, h2]
  rw [a2b_data2 (encChar_ne_61_all _ (by omega)) (decChar_encChar_all _ (by omega))]
  have h3 : (b / 16 * 64 + (b % 16 * 4 + c / 64)) / 4 = b := by omega
  have h4 : (b / 16 * 64 + (b % 16 * 4 + c / 64)) % 4 = c / 64 := by omega
  rw [h3, h4]
  rw [a2b_data3 (encChar_ne_61_all _ (by omega)) (decChar_encChar_all _ (by omega))]
  have h5 : c / 64 * 64 + c % 64 = c := by omega
  rw [h5]

theorem a2b_tail1 {a : Nat} (ha : a < 256) (acc : Bytes) :
    a2b [encChar (a / 4), encChar (a % 4 * 16), 61, 61] 0 0 0 acc =
      some (acc.reverse ++ [a]) := by
  rw [a2b_data0 (encChar_ne_61_all _ (by omega)) (decChar_encChar_all _ (by omega))]
  rw [a2b_data1 (encChar_ne_61_all _ (by omega)) (decChar_encChar_all _ (by omega))]
  have h1 : (a / 4 * 64 + a % 4 * 16) / 16 = a := by omega
  have h2 : (a / 4 * 64 + a % 4 * 16) % 16 = 0 := by omega
  rw [h1, h2]
  simp [a2b]

theorem a2b_tail2 {a b : Nat} (ha : a < 256) (hb : b < 256) (acc : Bytes) :
    a2b [encChar (a / 4), encChar (a % 4 * 16 + b / 16), encChar (b % 16 * 4), 61]
        0 0 0 acc = some (acc.reverse ++ [a, b]) := by
  rw [a2b_data0 (encChar_ne_61_all _ (by omega)) (decChar_encChar_all _ (by omega))]
  rw [a2b_data1 (encChar_ne_61_all _ (by omega)) (decChar_encChar_all _ (by omega))]
  have h1 : (a / 4 * 64 + (a % 4 * 16 + b / 16)) / 16 = a := by omega
  have h2 : (a / 4 * 64 + (a % 4 * 16 + b / 16)) % 16 = b / 16 := by omega
  rw [h1, h2]
  rw [a2b_data2 (encChar_ne_61_all _ (by omega)) (decChar_encChar_all _ (by omega))]
  have h3 : (b / 16 * 64 + b % 16 * 4) / 4 = b := by omega
  have h4 : (b / 16 * 64 + b % 16 * 4) % 4 = 0 := by omega
  rw [h3, h4]
  simp [a2b]

theorem a2b_encode (B : Bytes) : ∀ acc : Bytes, (∀ x ∈ B, x < 256) →
    a2b (b64encode B) 0 0 0 acc = some (acc.reverse ++ B) := by
  induction B using b64encode.induct with
  | case1 => intro acc _; simp [b64encode, a2b]
  | case2 a =>
      intro acc h
      rw [b64encode, a2b_tail1 (h a (by simp))]
  | case3 a b =>
      intro acc h
      rw [b64encode, a2b_tail2 (h a (by simp)) (h b (by simp))]
  | case4 a b c rest ih =>
      intro acc h
      rw [b64encode, a2b_quad (h a (by simp)) (h b (by simp)) (h c (by simp)),
          ih (c :: b :: a :: acc) (fun x hx => h x (by simp [hx]))]
      simp

/-- Base64 round trip as the code performs it: decoding an encoding of any
byte sequence recovers exactly that sequence. -/
theorem b64_roundtrip (B : Bytes) (h : ∀ x ∈ B, x < 256) :
    b64decode (b64encode B) = some B := by
  rw [b64decode, a2b_encode B [] h]
  simp

/-! ## Configuration constants (lines 14-23 of `main.py`) -/

def UPLOAD_DIR : String := "latest"

def LOG_FILE : String := "logs.txt"

def LATEST_FILE : String := UPLOAD_DIR ++ "/latest.png"

def BOXE_UPLOAD_URL : String := "https://box-e.be/API/UploadImage.php"

/-! ## Process state

`slot` is the content of the file `latest/latest.png` (`none` = absent),
`log` the lines of `logs.txt` (the file exists iff at least one line was
written), `boxe_wants_image` the module-level flag. -/

structure ServerState where
  slot : Option Bytes
  log : List String
  boxe_wants_image : Bool
deriving DecidableEq

def initialState : ServerState := ⟨none, [], false⟩

/-- The line format of `log_event`: `[timestamp] message`. -/
def logLine (ts msg : String) : String := "[" ++ ts ++ "] " ++ msg

/-- `log_event` (lines 32-39).  The body has no exception handling: the
`open(LOG_FILE, "a")`/`write` either succeeds (`sinkOk = true`), appending
the formatted line, or raises, and the exception propagates to the caller
(`Except.error`). -/
def log_event (sinkOk : Bool) (ts msg : String) (log : List String) :
    Except String (List String) :=
  if sinkOk then .ok (log ++ [logLine ts msg]) else .error "OSError: logs.txt"

/-- The `{status, message}` JSON objects the handlers build. -/
structure JsonResp where
  status : String
  message : String
deriving DecidableEq

/-- The `except` block of `receive_image` (lines 57-59): log the error and
return `{status error, message}`.  The `log_event` call itself can raise,
in which case the exception escapes the handler. -/
def uploadErrorPath (sinkOk : Bool) (ts e : String) (s : ServerState) :
    ServerState × Except String JsonResp :=
  match log_event sinkOk ts ("Error during upload: " ++ e) s.log with
  | .ok l => ({ s with log := l }, .ok ⟨"error", e⟩)
  | .error e2 => (s, .error e2)

/-- `POST /upload`, `receive_image` (lines 42-59).  `jsonOk` models whether
`await request.json()` succeeds, `image`/`filename` the body fields
(`none` = absent), `writeOk` whether `open(LATEST_FILE, "wb")` succeeds,
`sinkOk` whether the log file is writable, `ts` the current wall-clock
timestamp.  The error strings stand in for Python's `str(e)`. -/
def receive_image (jsonOk : Bool) (image : Option Bytes) (filename : Option String)
    (writeOk sinkOk : Bool) (ts : String) (s : ServerState) :
    ServerState × Except String JsonResp :=
  if jsonOk = false then uploadErrorPath sinkOk ts "JSONDecodeError" s
  else
    match image with
    | none => uploadErrorPath sinkOk ts "KeyError: image" s
    | some img =>
      match b64decode img with
      | none => uploadErrorPath sinkOk ts "binascii.Error: invalid base64" s
      | some bts =>
        if writeOk = false then uploadErrorPath sinkOk ts "OSError: latest/latest.png" s
        else
          let fn := filename.getD "latest.png"
          let s1 := { s with slot := some bts }
          match log_event sinkOk ts ("Image received and saved: " ++ fn) s1.log with
          | .ok l => ({ s1 with log := l }, .ok ⟨"ok", "Image successfully received"⟩)
          | .error e => uploadErrorPath sinkOk ts e s1

/-- `GET /check`, `status` (lines 62-70). -/
structure CheckResp where
  status : String
  image_available : Bool
deriving DecidableEq

def check (s : ServerState) : CheckResp := ⟨"running", s.slot.isSome⟩

/-- Responses of `get_latest_image`: the success dict, or
`JSONResponse(status_code=404, ...)`. -/
inductive GetLatestResp where
  | found (filename : String) (image_base64 : Bytes)
  | noImage (httpStatus : Nat) (status message : String)
deriving DecidableEq

/-- `GET /get-latest-image` (lines 73-88).  No `try/except`: when the slot
file exists but the read raises (`readOk = false`), the exception escapes
the handler. -/
def get_latest_image (readOk : Bool) (s : ServerState) :
    ServerState × Except String GetLatestResp :=
  match s.slot with
  | none => (s, .ok (.noImage 404 "error" "No image available"))
  | some bts =>
      if readOk then (s, .ok (.found "latest.png" (b64encode bts)))
      else (s, .error "OSError: read latest/latest.png")

/-- Responses of `view_image`: `FileResponse(LATEST_FILE, media_type="image/png")`
serving the slot's current bytes, or the 404 JSON. -/
inductive ViewImageResp where
  | file (content : Bytes) (mediaType : String)
  | noImage (httpStatus : Nat) (status message : String)
deriving DecidableEq

/-- `GET /view-image` (lines 91-98). -/
def view_image (s : ServerState) : ServerState × Except String ViewImageResp :=
  match s.slot with
  | some bts => (s, .ok (.file bts "image/png"))
  | none => (s, .ok (.noImage 404 "error" "No image available"))

/-- Contents of `logs.txt`: each logged line followed by a newline. -/
def logText (log : List String) : String := String.join (log.map (· ++ "\n"))

/-- `GET /view-logs` (lines 101-110).  Checks `os.path.exists(LOG_FILE)`;
no `try/except`, so a failing read escapes the handler. -/
def view_logs (readOk : Bool) (s : ServerState) : ServerState × Except String String :=
  if s.log = [] then (s, .ok "No logs available.")
  else if readOk then (s, .ok (logText s.log))
  else (s, .error "OSError: read logs.txt")

/-- Responses of `receive_demand`: `{"imgResult": ...}` wrapping whatever
`get_latest_image()` returned, or the `{status, message}` error object. -/
inductive DemandResp where
  | imgResult (r : GetLatestResp)
  | err (status message : String)
deriving DecidableEq

/-- The `except` block of `receive_demand` (lines 126-128). -/
def demandErrorPath (sinkOk : Bool) (ts e : String) (s : ServerState) :
    ServerState × Except String DemandResp :=
  match log_event sinkOk ts ("Error in /receive-demand: " ++ e) s.log with
  | .ok l => ({ s with log := l }, .ok (.err "error" e))
  | .error e2 => (s, .error e2)

/-- `POST /receive-demand`, `receive_demand` (lines 113-128).  Sets the
flag to `data.get("demand", False)`, logs the transition, then calls
`get_latest_image()` directly and wraps its result. -/
def receive_demand (jsonOk : Bool) (demand : Option Bool) (sinkOk readOk : Bool)
    (ts : String) (s : ServerState) : ServerState × Except String DemandResp :=
  if jsonOk = false then demandErrorPath sinkOk ts "JSONDecodeError" s
  else
    let d := demand.getD false
    let s1 := { s with boxe_wants_image := d }
    match log_event sinkOk ts ("Box-E demand received: " ++ (if d then "YES" else "NO")) s1.log with
    | .error e => demandErrorPath sinkOk ts e s1
    | .ok l =>
      let s2 := { s1 with log := l }
      match get_latest_image readOk s2 with
      | (s3, .ok r) => (s3, .ok (.imgResult r))
      | (s3, .error e) => demandErrorPath sinkOk ts e s3

/-- `check_demand_from_boxe` (lines 131-137): returns the flag. -/
def check_demand_from_boxe (s : ServerState) : Bool := s.boxe_wants_image

/-- An outbound HTTP POST made by the process (e.g. to `BOXE_UPLOAD_URL`). -/
structure OutboundPost where
  url : String
  image : Bytes
deriving DecidableEq

/-- One iteration of the `while True:` body of `polling_loop`
(lines 146-149), under its evident parse: when the flag is false it logs
"Box-E is not requesting an image." and sleeps; when the flag is true it
only sleeps.  The body performs no outbound call in either case — despite
the docstring "If Box-E has requested an image, it sends the latest image
to BOXE_UPLOAD_URL", no sending code exists, and `BOXE_UPLOAD_URL` is
never used.  (As written the body is not even valid Python: line 149
dedents to column 8, matching no enclosing block — an `IndentationError`.)
The middle component lists the outbound posts the iteration makes; the
last is `.error` when `log_event` raises (which would kill the loop
thread). -/
def polling_tick (sinkOk : Bool) (ts : String) (s : ServerState) :
    ServerState × List OutboundPost × Except String Unit :=
  if check_demand_from_boxe s = false then
    match log_event sinkOk ts "Box-E is not requesting an image." s.log with
    | .ok l => ({ s with log := l }, [], .ok ())
    | .error e => (s, [], .error e)
  else (s, [], .ok ())

/-! ## File-system micro-steps of the upload write

For the atomicity question the single write of `receive_image`
(`with open(LATEST_FILE, "wb") as f: f.write(image_bytes)`, lines 53-54)
is broken into its observable file-system steps: opening with mode `"wb"`
truncates the target in place, then the write fills it.  The temp-file
steps exist in the vocabulary so that "write-to-temp-then-rename" is
expressible, but the code never performs them. -/

inductive WriteStep where
  | truncateTarget
  | writeTarget (b : Bytes)
  | writeTemp (b : Bytes)
  | renameTempToTarget
deriving DecidableEq, BEq

/-- The file-system steps `receive_image` performs on the target path. -/
def uploadWriteSteps (b : Bytes) : List WriteStep := [.truncateTarget, .writeTarget b]

structure FsState where
  target : Bytes
  temp : Option Bytes
deriving DecidableEq

def stepFile (fs : FsState) : WriteStep → FsState
  | .truncateTarget => { fs with target := [] }
  | .writeTarget b => { fs with target := fs.target ++ b }
  | .writeTemp b => { fs with temp := some b }
  | .renameTempToTarget => { target := fs.temp.getD fs.target, temp := none }

/-- The target contents a concurrent reader can observe: the content after
each prefix of the step sequence, old content first. -/
def observableTargets (old : Bytes) (steps : List WriteStep) : List Bytes :=
  (steps.scanl stepFile ⟨old, none⟩).map FsState.target

/-! ## Claim theorems -/

/-- **C1.** The Delivery Loop iteration never issues an outbound post, and
at the claim's own scenario — DemandFlag true with the Slot holding the
bytes `[104, 105]` — it issues zero outbound delivery calls where the
claim (and the function's own docstring) requires exactly one; the
demand-false half (zero calls plus a "no demand" log line) is the only
part the body implements. -/
theorem claim1_polling_never_posts :
    (∀ sinkOk ts s, (polling_tick sinkOk ts s).2.1 = []) ∧
    (polling_tick true "2020-01-01 00:00:00" ⟨some [104, 105], [], true⟩).2.1 = [] ∧
    (polling_tick true "2020-01-01 00:00:00" ⟨some [104, 105], [], false⟩).2.1 = [] ∧
    logLine "2020-01-01 00:00:00" "Box-E is not requesting an image." ∈
      (polling_tick true "2020-01-01 00:00:00" ⟨some [104, 105], [], false⟩).1.log := by
  refine ⟨?_, rfl, rfl, by decide⟩
  intro sinkOk ts s
  unfold polling_tick
  cases h : check_demand_from_boxe s <;> cases sinkOk <;> simp [log_event]

/-- **C3.** A successful upload of `base64(B)` stores exactly `B` in the
Slot, and a following `GET /get-latest-image` answers `status ok` with
`image_base64 = base64(B)`, which decodes to exactly `B`. -/
theorem claim3_upload_get_roundtrip (B : Bytes) (hB : ∀ x ∈ B, x < 256)
    (F : Option String) (ts : String) (s : ServerState) :
    (receive_image true (some (b64encode B)) F true true ts s).2 =
      .ok ⟨"ok", "Image successfully received"⟩ ∧
    (receive_image true (some (b64encode B)) F true true ts s).1.slot = some B ∧
    (get_latest_image true (receive_image true (some (b64encode B)) F true true ts s).1).2 =
      .ok (.found "latest.png" (b64encode B)) ∧
    b64decode (b64encode B) = some B := by
  have hrt := b64_roundtrip B hB
  refine ⟨?_, ?_, ?_, hrt⟩ <;>
    simp [receive_image, hrt, log_event, get_latest_image]

/-- Witness for C3 at `B = [104, 105]` (the bytes of `"hi"`). -/
theorem claim3_witness :
    (receive_image true (some (b64encode [104, 105])) (some "x.png") true true
        "2020-01-01 00:00:00" initialState).2 =
      .ok ⟨"ok", "Image successfully received"⟩ ∧
    (receive_image true (some (b64encode [104, 105])) (some "x.png") true true
        "2020-01-01 00:00:00" initialState).1.slot = some [104, 105] ∧
    (get_latest_image true (receive_image true (some (b64encode [104, 105])) (some "x.png")
        true true "2020-01-01 00:00:00" initialState).1).2 =
      .ok (.found "latest.png" (b64encode [104, 105])) ∧
    b64decode (b64encode [104, 105]) = some [104, 105] :=
  claim3_upload_get_roundtrip [104, 105] (by decide) (some "x.png")
    "2020-01-01 00:00:00" initialState

/-- **C4, counterexample.** The image field `"!!!!"` (ASCII `[33, 33, 33,
33]`) is not valid base64, yet Python's lenient decoder discards the four
invalid characters and yields the empty byte string: the upload succeeds
with `status ok` and overwrites the prior Slot content `[104, 105]` with
the empty image — neither a structured error nor all-or-nothing. -/
theorem claim4_counterexample :
    b64decode [33, 33, 33, 33] = some [] ∧
    (receive_image true (some [33, 33, 33, 33]) none true true "t"
        ⟨some [104, 105], [], false⟩).2 = .ok ⟨"ok", "Image successfully received"⟩ ∧
    (receive_image true (some [33, 33, 33, 33]) none true true "t"
        ⟨some [104, 105], [], false⟩).1.slot = some [] := ⟨rfl, rfl, rfl⟩

/-- **C4, amended.** When the image field actually fails Python's lenient
base64 decode (`b64decode` raises), the handler returns the structured
error object and the Slot's prior content — including its absence — is
left unchanged; an invalid field that the lenient decoder nevertheless
accepts (e.g. all characters discarded) instead succeeds and overwrites
the Slot. -/
theorem claim4_amended (img : Bytes) (F : Option String) (ts : String)
    (s : ServerState) (hdec : b64decode img = none) :
    (receive_image true (some img) F true true ts s).2 =
      .ok ⟨"error", "binascii.Error: invalid base64"⟩ ∧
    (receive_image true (some img) F true true ts s).1.slot = s.slot := by
  constructor <;> simp [receive_image, hdec, uploadErrorPath, log_event]

/-- Witness for the amended C4 at `img = [89]` (the single character
`"Y"`, whose decode raises). -/
theorem claim4_witness :
    b64decode [89] = none ∧
    (receive_image true (some [89]) none true true "t"
        ⟨some [104, 105], [], false⟩).2 =
      .ok ⟨"error", "binascii.Error: invalid base64"⟩ ∧
    (receive_image true (some [89]) none true true "t"
        ⟨some [104, 105], [], false⟩).1.slot = some [104, 105] :=
  ⟨rfl, (claim4_amended [89] none "t" ⟨some [104, 105], [], false⟩ rfl).1,
    (claim4_amended [89] none "t" ⟨some [104, 105], [], false⟩ rfl).2⟩

/-- **C5, counterexample.** The upload write is not a
write-to-temp-then-rename: its step sequence contains no rename, and with
prior content `[104]` and new content `[119]` a reader between the
truncate and the write observes the empty content, which is neither the
old nor the new content in full. -/
theorem claim5_counterexample :
    (uploadWriteSteps [119]).contains WriteStep.renameTempToTarget = false ∧
    observableTargets [104] (uploadWriteSteps [119]) = [[104], [], [119]] ∧
    (([] : Bytes) = [104]) = False ∧ (([] : Bytes) = [119]) = False := by decide

/-- **C5, amended.** The image write of `POST /upload` is a naive in-place
truncate-then-write on the target path, with no temp file and no rename;
the observable target contents during a store of `b` over `old` are `old`,
then empty, then `b`, so a concurrent read can observe the torn empty
state. -/
theorem claim5_amended (old b : Bytes) :
    uploadWriteSteps b = [WriteStep.truncateTarget, WriteStep.writeTarget b] ∧
    (uploadWriteSteps b).contains WriteStep.renameTempToTarget = false ∧
    observableTargets old (uploadWriteSteps b) = [old, [], b] := by
  refine ⟨rfl, rfl, ?_⟩
  simp [observableTargets, uploadWriteSteps, List.scanl, stepFile]

/-- **C9, counterexample.** A failing durable-sink write inside
`log_event` is not caught: the operation surfaces the failure to its
caller. -/
theorem claim9_counterexample :
    log_event false "t" "m" [] = .error "OSError: logs.txt" := rfl

/-- **C9, amended.** `log_event` performs no exception handling at all:
when the sink write fails the failure propagates to the caller, and when
it succeeds the timestamped line is appended. -/
theorem claim9_amended (ts msg : String) (log : List String) :
    log_event false ts msg log = .error "OSError: logs.txt" ∧
    log_event true ts msg log = .ok (log ++ [logLine ts msg]) := ⟨rfl, rfl⟩

/-- **C2, counterexample.** `GET /get-latest-image`, with an image stored
but the storage read failing, lets the exception propagate out of the
handler instead of returning a structured error object. -/
theorem claim2_counterexample :
    (get_latest_image false ⟨some [104], [], false⟩).2 =
      .error "OSError: read latest/latest.png" := rfl

/-- **C2, amended.** Only `/upload` and `/receive-demand` wrap their
bodies in `try/except`: with a writable log sink they return a structured
response on every input, whatever else fails; `/get-latest-image` and
`/view-logs` handle only the missing-file case, and a storage read failure
propagates out of them as an exception. -/
theorem claim2_amended :
    (∀ jsonOk img F writeOk ts s, ∃ r,
      (receive_image jsonOk img F writeOk true ts s).2 = Except.ok r) ∧
    (∀ jsonOk d readOk ts s, ∃ r,
      (receive_demand jsonOk d true readOk ts s).2 = Except.ok r) ∧
    (∀ s b, s.slot = some b →
      (get_latest_image false s).2 = .error "OSError: read latest/latest.png") ∧
    (∀ s, s.log ≠ [] →
      (view_logs false s).2 = .error "OSError: read logs.txt") := by
  refine ⟨?_, ?_, ?_, ?_⟩
  · intro jsonOk img F writeOk ts s
    cases jsonOk <;> simp [receive_image, uploadErrorPath, log_event]
    cases img with
    | none => simp [uploadErrorPath, log_event]
    | some i =>
        cases hdec : b64decode i with
        | none => simp [hdec, uploadErrorPath, log_event]
        | some bts => cases writeOk <;> simp [hdec, uploadErrorPath, log_event]
  · intro jsonOk d readOk ts s
    cases jsonOk <;> simp [receive_demand, demandErrorPath, log_event]
    cases hslot : s.slot with
    | none => simp [get_latest_image, hslot]
    | some b => cases readOk <;> simp [get_latest_image, hslot, demandErrorPath, log_event]
  · intro s b hb
    simp [get_latest_image, hb]
  · intro s hlog
    simp [view_logs, hlog]

/-- Witness for the amended C2: `/upload` with a missing image field still
answers structurally; `/receive-demand` answers structurally even when its
inner image read fails; the two read-only handlers propagate read
failures. -/
theorem claim2_witness :
    (∃ r, (receive_image true none none true true "t" initialState).2 = Except.ok r) ∧
    (∃ r, (receive_demand true (some true) true false "t"
      ⟨some [104], [], false⟩).2 = Except.ok r) ∧
    (get_latest_image false ⟨some [104], ["l"], true⟩).2 =
      .error "OSError: read latest/latest.png" ∧
    (view_logs false ⟨some [104], ["l"], true⟩).2 = .error "OSError: read logs.txt" :=
  ⟨claim2_amended.1 true none none true "t" initialState,
   claim2_amended.2.1 true (some true) false "t" ⟨some [104], [], false⟩,
   claim2_amended.2.2.1 ⟨some [104], ["l"], true⟩ [104] rfl,
   claim2_amended.2.2.2 ⟨some [104], ["l"], true⟩ (by decide)⟩

/-- **C6.** With a parsed JSON body, `/receive-demand` sets the flag to
the body's `demand` value (default `false` when the field is absent) and
appends the transition line to the log; every other operation of the
program leaves the flag unchanged, and `check_demand_from_boxe` merely
reads it. -/
theorem claim6_demand_flag (d : Option Bool) (readOk : Bool) (ts : String)
    (s : ServerState) :
    (receive_demand true d true readOk ts s).1.boxe_wants_image = d.getD false ∧
    logLine ts ("Box-E demand received: " ++ (if d.getD false then "YES" else "NO")) ∈
      (receive_demand true d true readOk ts s).1.log ∧
    (∀ jsonOk img F writeOk sinkOk ts2,
      (receive_image jsonOk img F writeOk sinkOk ts2 s).1.boxe_wants_image
        = s.boxe_wants_image) ∧
    (∀ readOk2, (get_latest_image readOk2 s).1.boxe_wants_image = s.boxe_wants_image) ∧
    (view_image s).1.boxe_wants_image = s.boxe_wants_image ∧
    (∀ readOk2, (view_logs readOk2 s).1.boxe_wants_image = s.boxe_wants_image) ∧
    (∀ sinkOk ts2, (polling_tick sinkOk ts2 s).1.boxe_wants_image = s.boxe_wants_image) ∧
    check_demand_from_boxe s = s.boxe_wants_image := by
  refine ⟨?_, ?_, ?_, ?_, ?_, ?_, ?_, rfl⟩
  · cases hslot : s.slot with
    | none => simp [receive_demand, demandErrorPath, log_event, get_latest_image, hslot]
    | some b =>
        cases readOk <;>
          simp [receive_demand, demandErrorPath, log_event, get_latest_image, hslot]
  · cases hslot : s.slot with
    | none => simp [receive_demand, demandErrorPath, log_event, get_latest_image, hslot]
    | some b =>
        cases readOk <;>
          simp [receive_demand, demandErrorPath, log_event, get_latest_image, hslot]
  · intro jsonOk img F writeOk sinkOk ts2
    cases jsonOk <;> cases sinkOk <;>
      simp [receive_image, uploadErrorPath, log_event] <;>
      cases img <;> simp [uploadErrorPath, log_event] <;>
      rename_i i <;> cases b64decode i <;> simp [uploadErrorPath, log_event] <;>
      cases writeOk <;> simp [uploadErrorPath, log_event]
  · intro readOk2
    cases hslot : s.slot <;> cases readOk2 <;> simp [get_latest_image, hslot]
  · cases hslot : s.slot <;> simp [view_image, hslot]
  · intro readOk2
    by_cases hlog : s.log = [] <;> cases readOk2 <;> simp [view_logs, hlog]
  · intro sinkOk ts2
    cases h : check_demand_from_boxe s <;> cases sinkOk <;>
      simp [polling_tick, h, log_event]

/-- **C7.** The two image-fetch handlers answer 404 with the structured
error body exactly when the Slot is empty; with an image `b` present,
`/get-latest-image` answers `status ok` with the base64 encoding and the
filename, and `/view-image` serves the raw bytes as `image/png` whatever
the bytes are. -/
theorem claim7_get_view (s : ServerState) (b : Bytes) :
    (s.slot = none →
      (get_latest_image true s).2 = .ok (.noImage 404 "error" "No image available") ∧
      (view_image s).2 = .ok (.noImage 404 "error" "No image available")) ∧
    (s.slot = some b →
      (get_latest_image true s).2 = .ok (.found "latest.png" (b64encode b)) ∧
      (view_image s).2 = .ok (.file b "image/png")) := by
  constructor
  · intro h; constructor <;> simp [get_latest_image, view_image, h]
  · intro h; constructor <;> simp [get_latest_image, view_image, h]

/-- Witness for C7: the empty state, and a state holding the single byte
`[7]` (not a PNG — the media type is still `image/png`). -/
theorem claim7_witness :
    ((get_latest_image true initialState).2 =
        .ok (.noImage 404 "error" "No image available") ∧
      (view_image initialState).2 = .ok (.noImage 404 "error" "No image available")) ∧
    ((get_latest_image true ⟨some [7], [], false⟩).2 =
        .ok (.found "latest.png" (b64encode [7])) ∧
      (view_image ⟨some [7], [], false⟩).2 = .ok (.file [7] "image/png")) :=
  ⟨(claim7_get_view initialState [7]).1 rfl,
   (claim7_get_view ⟨some [7], [], false⟩ [7]).2 rfl⟩

/-- **C8, counterexample.** From the empty state, one successful upload
with filename `"x.png"` leaves exactly one log line, and it reads
`Image received and saved: x.png` — no log line has the claimed form
`[<timestamp>] Image received: <filename>` (no line even starts with
`"[ts] Image received: "`). -/
theorem claim8_counterexample :
    (receive_image true (some [97, 71, 107, 61]) (some "x.png") true true
        "2020-01-01 00:00:00" initialState).1.log =
      ["[2020-01-01 00:00:00] Image received and saved: x.png"] ∧
    ((receive_image true (some [97, 71, 107, 61]) (some "x.png") true true
        "2020-01-01 00:00:00" initialState).1.log.all
      fun l => !(List.isPrefixOf "[2020-01-01 00:00:00] Image received: ".toList
                  l.toList)) = true := by
  constructor
  · rfl
  · decide

/-- **C8, amended.** With an empty log, `/view-logs` returns exactly
`"No logs available."`; after one successful upload of `img` with filename
`F` at timestamp `ts`, the log contains the line
`[ts] Image received and saved: F`. -/
theorem claim8_amended (ts F : String) (img bts : Bytes)
    (hdec : b64decode img = some bts) :
    (view_logs true initialState).2 = .ok "No logs available." ∧
    logLine ts ("Image received and saved: " ++ F) ∈
      (receive_image true (some img) (some F) true true ts initialState).1.log := by
  constructor
  · rfl
  · simp [receive_image, hdec, log_event, initialState, logLine]

/-- Witness for the amended C8 at the upload of `"aGk="` (the bytes of
`"hi"`) with filename `"x.png"`. -/
theorem claim8_witness :
    (view_logs true initialState).2 = .ok "No logs available." ∧
    logLine "2020-01-01 00:00:00" ("Image received and saved: " ++ "x.png") ∈
      (receive_image true (some [97, 71, 107, 61]) (some "x.png") true true
        "2020-01-01 00:00:00" initialState).1.log :=
  claim8_amended "2020-01-01 00:00:00" "x.png" [97, 71, 107, 61] [104, 105] rfl

/-- **C10.** The upload path constant is the fixed
`latest/latest.png`; a successful upload stores the decoded bytes there
whatever the `filename` field was (the Slot content does not depend on
it), the filename only reaches the log line, and `/get-latest-image`
always reports the constant filename `latest.png`. -/
theorem claim10_fixed_path (img bts : Bytes) (F F2 : Option String) (ts : String)
    (s : ServerState) (hdec : b64decode img = some bts) :
    LATEST_FILE = "latest/latest.png" ∧
    (receive_image true (some img) F true true ts s).1.slot = some bts ∧
    (receive_image true (some img) F true true ts s).1.slot =
      (receive_image true (some img) F2 true true ts s).1.slot ∧
    (receive_image true (some img) F true true ts s).1.log =
      s.log ++ [logLine ts ("Image received and saved: " ++ F.getD "latest.png")] ∧
    (∀ b, s.slot = some b →
      (get_latest_image true s).2 = .ok (.found "latest.png" (b64encode b))) := by
  refine ⟨rfl, ?_, ?_, ?_, ?_⟩
  · simp [receive_image, hdec, log_event]
  · simp [receive_image, hdec, log_event]
  · simp [receive_image, hdec, log_event]
  · intro b hb; simp [get_latest_image, hb]

/-- Witness for C10: uploading `"AQ=="` (the byte `[1]`) with filename
`"mine.jpg"` versus `"other.gif"` over a state holding `[5]`. -/
theorem claim10_witness :
    LATEST_FILE = "latest/latest.png" ∧
    (receive_image true (some [65, 81, 61, 61]) (some "mine.jpg") true true "t"
        ⟨some [5], [], false⟩).1.slot = some [1] ∧
    (receive_image true (some [65, 81, 61, 61]) (some "mine.jpg") true true "t"
        ⟨some [5], [], false⟩).1.slot =
      (receive_image true (some [65, 81, 61, 61]) (some "other.gif") true true "t"
        ⟨some [5], [], false⟩).1.slot ∧
    (receive_image true (some [65, 81, 61, 61]) (some "mine.jpg") true true "t"
        ⟨some [5], [], false⟩).1.log =
      [] ++ [logLine "t" ("Image received and saved: " ++
        (some "mine.jpg").getD "latest.png")] ∧
    (∀ b, (⟨some [5], [], false⟩ : ServerState).slot = some b →
      (get_latest_image true ⟨some [5], [], false⟩).2 =
        .ok (.found "latest.png" (b64encode b))) :=
  claim10_fixed_path [65, 81, 61, 61] [1] (some "mine.jpg") (some "other.gif") "t"
    ⟨some [5], [], false⟩ rfl

end ContainerId
